import Mathlib

/-!
Verification of the virtual try-on pipeline (image normalizer, resilient
invoker, generation client, orchestrator) of the Leggings7 repository.
The TypeScript sources are shallowly embedded: asynchronous operations
become explicit outcome sequences, promise rejection becomes `Except`,
and the two near-identical service variants (`geminiService` with the
credential reclassification and the variant without it) are both modelled.
-/

namespace Leggings

/-! ## JavaScript string primitives

`String.prototype.includes` is modelled on lists of characters. -/

/-- Whether the first character list is an initial segment of the second.
Embeds the character-by-character comparison behind `String.includes`. -/
def charsLeading : List Char → List Char → Bool
  | [], _ => true
  | _ :: _, [] => false
  | a :: as, b :: bs => a == b && charsLeading as bs

/-- Whether `needle` occurs contiguously inside the second list. -/
def charsContains (needle : List Char) : List Char → Bool
  | [] => needle.isEmpty
  | b :: bs => charsLeading needle (b :: bs) || charsContains needle bs

/-- JavaScript `hay.includes(needle)`. -/
def jsIncludes (hay needle : String) : Bool :=
  charsContains needle.data hay.data

/-- JavaScript `s.toUpperCase()` (ASCII-faithful). -/
def jsToUpper (s : String) : String := ⟨s.data.map Char.toUpper⟩

/-- JavaScript `s.startsWith(pre)`. -/
def jsStartsWith (s pre : String) : Bool := charsLeading pre.data s.data

/-- JavaScript `s.trim()`: leading and trailing whitespace removed. -/
def jsTrim (s : String) : String :=
  ⟨((s.data.dropWhile Char.isWhitespace).reverse.dropWhile
      Char.isWhitespace).reverse⟩

/-! ## Error model

A thrown JavaScript error, as inspected by `fetchWithRetry`:
its `message` string (absent message modelled as `""`) and its
optional numeric `status`. -/

structure JsError where
  message : String
  status : Option Nat
  deriving DecidableEq, Repr

/-- `error.message.includes("Requested entity was not found")`
(src/unnamed/part_001, line 11). -/
def isEntityNotFound (e : JsError) : Bool :=
  jsIncludes e.message "Requested entity was not found"

/-- `errorMsg.includes("429") || error.status === 429`
(src/unnamed/part_001, line 14). -/
def isRetryableV1 (e : JsError) : Bool :=
  jsIncludes e.message "429" || e.status == some 429

/-- `error.message?.includes("429") || error.status === 429 ||
error.message?.includes("quota")` (src/unnamed/part_002, line 9). -/
def isRetryableV2 (e : JsError) : Bool :=
  jsIncludes e.message "429" || e.status == some 429 || jsIncludes e.message "quota"

/-- The error thrown as `new Error("KEY_NOT_FOUND")`. -/
def keyNotFoundError : JsError := ⟨"KEY_NOT_FOUND", none⟩

/-- How one catch-block run of `fetchWithRetry` treats a failure. -/
inductive RetryClass where
  | credential
  | retryable
  | fatal
  deriving DecidableEq, Repr

/-- Classification performed inside the part_001 `fetchWithRetry` catch
block: the entity-not-found check precedes the retryable check. -/
def classifyV1 (e : JsError) : RetryClass :=
  if isEntityNotFound e then .credential
  else if isRetryableV1 e then .retryable
  else .fatal

/-- Classification performed inside the part_002 `fetchWithRetry` catch
block: no credential reclassification exists in that variant. -/
def classifyV2 (e : JsError) : RetryClass :=
  if isRetryableV2 e then .retryable else .fatal

/-! ## The resilient invoker

`fetchWithRetry(fn, retries = 2, delay = 2000)` is embedded with the
wrapped operation as a sequence of outcomes (`op k` is what the `k`-th
invocation of `fn` settles to).  The runner returns the final outcome,
the number of invocations performed, and the list of sleep durations,
in order. -/

/-- One shallow embedding serving both source variants, parameterised by
the catch-block classification.  `retries`, `delay` and the invocation
index `k` thread exactly as in the recursive TypeScript function. -/
def runRetry {α : Type} (classify : JsError → RetryClass)
    (op : Nat → Except JsError α) :
    Nat → Nat → Nat → Except JsError α × Nat × List Nat
  | retries, delay, k =>
    match op k with
    | .ok v => (.ok v, 1, [])
    | .error e =>
      match classify e with
      | .credential => (.error keyNotFoundError, 1, [])
      | .fatal => (.error e, 1, [])
      | .retryable =>
        match retries with
        | 0 => (.error e, 1, [])
        | r + 1 =>
          let rest := runRetry classify op r (delay * 2) (k + 1)
          (rest.1, rest.2.1 + 1, delay :: rest.2.2)

/-- `fetchWithRetry` of src/unnamed/part_001. -/
def fetchWithRetryV1 {α : Type} (op : Nat → Except JsError α)
    (retries delay k : Nat) : Except JsError α × Nat × List Nat :=
  runRetry classifyV1 op retries delay k

/-- `fetchWithRetry` of src/unnamed/part_002. -/
def fetchWithRetryV2 {α : Type} (op : Nat → Except JsError α)
    (retries delay k : Nat) : Except JsError α × Nat × List Nat :=
  runRetry classifyV2 op retries delay k

/-! ## Size-estimate parsing

`estimateSizeFromImage` parses the backend response text as
`const size = response.text?.trim().toUpperCase() || 'M';`
`validSizes.find(s => size.includes(s)) || 'M'` (identical in both
service variants). -/

/-- `const validSizes = ['XS', 'S', 'M', 'L', 'XL', 'XXL']`. -/
def validSizes : List String := ["XS", "S", "M", "L", "XL", "XXL"]

/-- The `size` local: `response.text?.trim().toUpperCase() || 'M'`.
An absent `text` or an empty trimmed-and-uppercased string (both falsy
in JavaScript) fall back to `"M"`. -/
def normalizedSizeText (t : Option String) : String :=
  match t with
  | none => "M"
  | some s => if jsToUpper (jsTrim s) = "" then "M" else jsToUpper (jsTrim s)

/-- `validSizes.find(s => size.includes(s)) || 'M'`. -/
def parseSizeResponse (t : Option String) : String :=
  (validSizes.find? (fun s => jsIncludes (normalizedSizeText t) s)).getD "M"

/-! ## Generation-backend response model and `performVirtualTryOn`

Only the fields the code reads are modelled; every field the TypeScript
SDK declares optional is an `Option`. -/

structure InlineData where
  data : Option String
  mimeType : Option String
  deriving DecidableEq, Repr

structure ResponsePart where
  inlineData : Option InlineData
  deriving DecidableEq, Repr

structure CandidateContent where
  parts : Option (List ResponsePart)
  deriving DecidableEq, Repr

structure Candidate where
  finishReason : Option String
  content : Option CandidateContent
  deriving DecidableEq, Repr

structure GenResponse where
  text : Option String
  candidates : Option (List Candidate)
  deriving DecidableEq, Repr

/-- `response.candidates?.[0]?.finishReason === 'SAFETY'`. -/
def isSafetyBlocked (r : GenResponse) : Bool :=
  ((r.candidates.bind List.head?).bind Candidate.finishReason) == some "SAFETY"

/-- `response.candidates?.[0]?.content?.parts?.find(p => p.inlineData)`. -/
def findInlinePart (r : GenResponse) : Option ResponsePart :=
  (((r.candidates.bind List.head?).bind Candidate.content).bind
      CandidateContent.parts).bind
    (List.find? (fun p => p.inlineData.isSome))

/-- The truthiness test `part?.inlineData?.data` distilled to the data
string it extracts: `none` when the chain is broken or the string is
empty (both falsy in JavaScript). -/
def extractInlineData (r : GenResponse) : Option String :=
  match ((findInlinePart r).bind ResponsePart.inlineData).bind InlineData.data with
  | none => none
  | some d => if d = "" then none else some d

/-- `ContentRejected` message of src/unnamed/part_001, line 112. -/
def safetyMessageV1 : String :=
  "Das Bild wurde aus Sicherheitsgründen blockiert. Bitte trage auf deinem Foto neutrale Kleidung."

/-- `GenerationFailed` message of src/unnamed/part_001, line 117. -/
def generationFailedMessageV1 : String :=
  "KI konnte kein Bild generieren. Bitte versuche es mit einem deutlicheren Foto."

/-- Response inspection of `performVirtualTryOn` (lines 111–117 of
src/unnamed/part_001), parameterised by the two thrown messages so the
part_002 variant is the same function applied to its own strings. -/
def inspectTryOnResponse (safetyMsg failMsg : String) (r : GenResponse) :
    Except JsError String :=
  if isSafetyBlocked r then .error ⟨safetyMsg, none⟩
  else
    match extractInlineData r with
    | some d => .ok ("data:image/jpeg;base64," ++ d)
    | none => .error ⟨failMsg, none⟩

/-- `performVirtualTryOn` of src/unnamed/part_001: the response
inspection runs inside `fetchWithRetry` with its default budget, over a
sequence of backend responses. -/
def performVirtualTryOnV1 (resp : Nat → GenResponse) :
    Except JsError String × Nat × List Nat :=
  fetchWithRetryV1
    (fun k => inspectTryOnResponse safetyMessageV1 generationFailedMessageV1 (resp k))
    2 2000 0

/-! ## Image normalizer (`optimizeImage`)

Decoded dimensions are modelled as exact rationals; the sequential
`width`/`height` reassignments of the source become one pure pair. -/

/-- The dimension arithmetic of `optimizeImage` (lines 29–37 of
src/unnamed/part_001): `if (width > height) { if (width > maxWidth)
{ height *= maxWidth / width; width = maxWidth; } } else { if (height >
maxWidth) { width *= maxWidth / height; height = maxWidth; } }`. -/
def optimizeDims (w h maxWidth : ℚ) : ℚ × ℚ :=
  if h < w then
    if maxWidth < w then (maxWidth, h * (maxWidth / w)) else (w, h)
  else
    if maxWidth < h then (w * (maxWidth / h), maxWidth) else (w, h)

/-- The `onerror` rejection message, `DecodeError` of the spec. -/
def decodeErrorMessage : String := "Bild konnte nicht verarbeitet werden."

/-- `optimizeImage`: the browser decode (`new Image()` + `onload` /
`onerror`) is an oracle giving the decoded dimensions, or `none` when
decoding fails.  On success the canvas holds the scaled dimensions and a
JPEG data URI is produced from it; the payload is represented by its
dimensions. -/
def optimizeImage (decode : String → Option (ℚ × ℚ)) (src : String)
    (maxWidth : ℚ) : Except String (ℚ × ℚ) :=
  match decode src with
  | none => .error decodeErrorMessage
  | some (w, h) => .ok (optimizeDims w h maxWidth)

/-! ## Remote product-image fetch (`urlToBase64`) -/

/-- `urlToBase64`: `if (url.startsWith('data:')) return url;` else the
proxied network fetch runs.  `remote` abstracts the proxy round-trip;
the boolean records whether the network path was taken. -/
def urlToBase64 (remote : String → Except String String) (url : String) :
    Except String String × Bool :=
  if jsStartsWith url "data:" then (.ok url, false)
  else (remote url, true)

/-! ## Orchestrator (`handleTryOn`)

The pipeline stages are embedded as their settled outcomes; the React
state record is threaded explicitly.  `App.tsx` and the part_000
variant differ only in the catch-block message mapping, so one function
parameterised by that mapping embeds both. -/

structure Product where
  id : Nat
  name : String
  description : String
  imageUrl : String
  deriving DecidableEq, Repr

structure TryOnState where
  userImage : Option String
  selectedProduct : Option Product
  resultImage : Option String
  recommendedSize : Option String
  isLoading : Bool
  error : Option String
  deriving DecidableEq, Repr

/-- The settled outcomes of the three awaited pipeline stages of one
attempt: `urlToBase64`, `estimateSizeFromImage`, `performVirtualTryOn`. -/
structure PipelineEnv where
  fetchProduct : Except JsError String
  estimateSize : Except JsError String
  render : Except JsError String

/-- The `try` block body: the three awaits in source order; the first
rejection aborts the rest. -/
def runPipeline (env : PipelineEnv) : Except JsError (String × String) :=
  match env.fetchProduct with
  | .error e => .error e
  | .ok _ =>
    match env.estimateSize with
    | .error e => .error e
    | .ok size =>
      match env.render with
      | .error e => .error e
      | .ok img => .ok (img, size)

/-- Catch-block message mapping of `App.tsx` (lines 89–95): a
`KEY_NOT_FOUND` failure prompts re-selection, a message containing
`429` becomes the busy notice, otherwise the message passes through
(empty message falls back to the generic notice). -/
def appErrorMessage (e : JsError) : String :=
  if e.message = "KEY_NOT_FOUND" then "Bitte wähle deinen API Key erneut aus."
  else
    let m := if e.message = "" then "Ein technischer Fehler ist aufgetreten."
             else e.message
    if jsIncludes m "429" then "Die KI ist gerade ausgelastet. Bitte warte einen Moment."
    else m

/-- Catch-block message mapping of src/unnamed/part_000 (lines 72–73). -/
def freeErrorMessage (e : JsError) : String :=
  let m := if e.message = "" then "Ein technischer Fehler ist aufgetreten."
           else e.message
  if jsIncludes m "429" then "Server ausgelastet. Bitte kurz warten."
  else m

/-- `handleTryOn`: guard on both inputs, clear the error and set
loading, then publish either the composite image together with the size
recommendation, or only the mapped error message. -/
def handleTryOn (errMsg : JsError → String) (env : PipelineEnv)
    (s : TryOnState) : TryOnState :=
  match s.userImage, s.selectedProduct with
  | some _, some _ =>
    let s1 := { s with isLoading := true, error := none }
    match runPipeline env with
    | .ok (img, size) =>
      { s1 with resultImage := some img, recommendedSize := some size,
                isLoading := false }
    | .error e =>
      { s1 with isLoading := false, error := some (errMsg e) }
  | _, _ => s

/-! ## Concrete sample inputs used by witnesses and counterexamples -/

/-- The entity-not-found failure the backend raises on a missing key. -/
def entityNotFoundError : JsError := ⟨"Requested entity was not found", none⟩

/-- A quota-exhaustion failure whose message carries no `429`. -/
def quotaError : JsError :=
  ⟨"Resource has been exhausted (e.g. check quota).", none⟩

/-- A rate-limit failure. -/
def rateLimitError : JsError := ⟨"429 Too Many Requests", none⟩

/-- An unclassified server failure. -/
def serverError : JsError := ⟨"500 Internal Server Error", none⟩

/-- A wrapped operation that is rate-limited twice and then succeeds:
end-to-end scenario D of the specification. -/
def rateLimitedTwiceOp : Nat → Except JsError Nat :=
  fun k => if k < 2 then .error rateLimitError else .ok 7

/-- A composite-call response whose first inline-data part carries no
data while a later part does. -/
def dataLessInlineResponse : GenResponse :=
  { text := none,
    candidates := some [
      { finishReason := none,
        content := some { parts := some [
          { inlineData := some { data := none, mimeType := some "image/png" } },
          { inlineData := some { data := some "QUJD", mimeType := some "image/png" } }] } }] }

/-- A composite-call response reporting a safety block. -/
def safetyResponse : GenResponse :=
  { text := none,
    candidates := some [{ finishReason := some "SAFETY", content := none }] }

/-- A successful composite-call response declaring a PNG MIME type on
its inline data. -/
def pngResponse : GenResponse :=
  { text := none,
    candidates := some [
      { finishReason := none,
        content := some { parts := some [
          { inlineData := some { data := some "QUJD", mimeType := some "image/png" } }] } }] }

/-- A sample catalog product. -/
def demoProduct : Product :=
  { id := 1, name := "Set One", description := "Two-piece set",
    imageUrl := "https://example.com/set.jpg" }

/-- A fresh orchestrator state holding both required inputs. -/
def demoState : TryOnState :=
  { userImage := some "data:image/jpeg;base64,AAAA",
    selectedProduct := some demoProduct,
    resultImage := none, recommendedSize := none,
    isLoading := false, error := none }

/-- A pipeline run whose rendering stage fails after a successful size
estimate. -/
def renderFailEnv : PipelineEnv :=
  { fetchProduct := .ok "data:image/jpeg;base64,BBBB",
    estimateSize := .ok "M",
    render := .error ⟨generationFailedMessageV1, none⟩ }

/-! Step equations for the runner. -/

theorem runRetry_ok {α : Type} {classify : JsError → RetryClass}
    {op : Nat → Except JsError α} {k : Nat} {v : α}
    (h : op k = .ok v) (retries delay : Nat) :
    runRetry classify op retries delay k = (.ok v, 1, []) := by
  rw [runRetry, h]

theorem runRetry_credential {α : Type} {classify : JsError → RetryClass}
    {op : Nat → Except JsError α} {k : Nat} {e : JsError}
    (h : op k = .error e) (hc : classify e = .credential)
    (retries delay : Nat) :
    runRetry classify op retries delay k =
      (.error keyNotFoundError, 1, []) := by
  rw [runRetry, h]; simp [hc]

theorem runRetry_fatal {α : Type} {classify : JsError → RetryClass}
    {op : Nat → Except JsError α} {k : Nat} {e : JsError}
    (h : op k = .error e) (hc : classify e = .fatal)
    (retries delay : Nat) :
    runRetry classify op retries delay k = (.error e, 1, []) := by
  rw [runRetry, h]; simp [hc]

theorem runRetry_retryable_zero {α : Type} {classify : JsError → RetryClass}
    {op : Nat → Except JsError α} {k : Nat} {e : JsError}
    (h : op k = .error e) (hc : classify e = .retryable) (delay : Nat) :
    runRetry classify op 0 delay k = (.error e, 1, []) := by
  rw [runRetry, h]; simp [hc]

theorem runRetry_retryable_succ {α : Type} {classify : JsError → RetryClass}
    {op : Nat → Except JsError α} {k : Nat} {e : JsError}
    (h : op k = .error e) (hc : classify e = .retryable) (r delay : Nat) :
    runRetry classify op (r + 1) delay k =
      ((runRetry classify op r (delay * 2) (k + 1)).1,
       (runRetry classify op r (delay * 2) (k + 1)).2.1 + 1,
       delay :: (runRetry classify op r (delay * 2) (k + 1)).2.2) := by
  rw [runRetry, h]; simp [hc]

/-! Generic facts about the runner. -/

theorem runRetry_calls_pos {α : Type} (classify : JsError → RetryClass)
    (op : Nat → Except JsError α) (retries delay k : Nat) :
    1 ≤ (runRetry classify op retries delay k).2.1 := by
  induction retries generalizing delay k with
  | zero =>
    match hop : op k with
    | .ok v => rw [runRetry_ok hop]
    | .error e =>
      match hc : classify e with
      | .credential => rw [runRetry_credential hop hc]
      | .fatal => rw [runRetry_fatal hop hc]
      | .retryable => rw [runRetry_retryable_zero hop hc]
  | succ r ih =>
    match hop : op k with
    | .ok v => rw [runRetry_ok hop]
    | .error e =>
      match hc : classify e with
      | .credential => rw [runRetry_credential hop hc]
      | .fatal => rw [runRetry_fatal hop hc]
      | .retryable =>
        rw [runRetry_retryable_succ hop hc]
        exact Nat.le_add_left 1 _

theorem runRetry_calls_le {α : Type} (classify : JsError → RetryClass)
    (op : Nat → Except JsError α) (retries delay k : Nat) :
    (runRetry classify op retries delay k).2.1 ≤ retries + 1 := by
  induction retries generalizing delay k with
  | zero =>
    match hop : op k with
    | .ok v => rw [runRetry_ok hop]
    | .error e =>
      match hc : classify e with
      | .credential => rw [runRetry_credential hop hc]
      | .fatal => rw [runRetry_fatal hop hc]
      | .retryable => rw [runRetry_retryable_zero hop hc]
  | succ r ih =>
    match hop : op k with
    | .ok v =>
      rw [runRetry_ok hop]
      exact Nat.succ_le_succ (Nat.zero_le _)
    | .error e =>
      match hc : classify e with
      | .credential =>
        rw [runRetry_credential hop hc]
        exact Nat.succ_le_succ (Nat.zero_le _)
      | .fatal =>
        rw [runRetry_fatal hop hc]
        exact Nat.succ_le_succ (Nat.zero_le _)
      | .retryable =>
        rw [runRetry_retryable_succ hop hc]
        have := ih (delay * 2) (k + 1)
        simp only
        omega

theorem runRetry_delays {α : Type} (classify : JsError → RetryClass)
    (op : Nat → Except JsError α) (retries delay k : Nat) :
    (runRetry classify op retries delay k).2.2 =
      (List.range ((runRetry classify op retries delay k).2.1 - 1)).map
        (fun i => delay * 2 ^ i) := by
  induction retries generalizing delay k with
  | zero =>
    match hop : op k with
    | .ok v => rw [runRetry_ok hop]; simp
    | .error e =>
      match hc : classify e with
      | .credential => rw [runRetry_credential hop hc]; simp
      | .fatal => rw [runRetry_fatal hop hc]; simp
      | .retryable => rw [runRetry_retryable_zero hop hc]; simp
  | succ r ih =>
    match hop : op k with
    | .ok v => rw [runRetry_ok hop]; simp
    | .error e =>
      match hc : classify e with
      | .credential => rw [runRetry_credential hop hc]; simp
      | .fatal => rw [runRetry_fatal hop hc]; simp
      | .retryable =>
        rw [runRetry_retryable_succ hop hc]
        simp only
        have hpos := runRetry_calls_pos classify op r (delay * 2) (k + 1)
        obtain ⟨m, hm⟩ := Nat.exists_eq_add_of_le hpos
        rw [ih (delay * 2) (k + 1), hm]
        have h1 : 1 + m + 1 - 1 = m + 1 := by omega
        have h2 : 1 + m - 1 = m := by omega
        rw [h1, h2, List.range_succ_eq_map]
        simp only [List.map_cons, List.map_map, pow_zero, Nat.mul_one]
        congr 1
        apply List.map_congr_left
        intro i _
        simp only [Function.comp_apply, pow_succ]
        ring

/-- If the first `j` invocations fail retryably and the `j`-th one
succeeds within budget, the runner returns that success after `j + 1`
invocations, sleeping the doubling delays in between. -/
theorem runRetry_first_success {α : Type} (classify : JsError → RetryClass)
    (op : Nat → Except JsError α) (v : α) :
    ∀ (j retries delay k : Nat), j ≤ retries →
      (∀ i, i < j → ∃ e, op (k + i) = .error e ∧ classify e = .retryable) →
      op (k + j) = .ok v →
      runRetry classify op retries delay k =
        (.ok v, j + 1, (List.range j).map (fun i => delay * 2 ^ i)) := by
  intro j
  induction j with
  | zero =>
    intro retries delay k _ _ hok
    simp only [Nat.add_zero] at hok
    rw [runRetry_ok hok]
    simp
  | succ n ih =>
    intro retries delay k hle hfail hok
    obtain ⟨e0, he0, hc0⟩ := hfail 0 (Nat.succ_pos n)
    rw [Nat.add_zero] at he0
    obtain ⟨r, rfl⟩ : ∃ r, retries = r + 1 :=
      ⟨retries - 1, by omega⟩
    rw [runRetry_retryable_succ he0 hc0]
    have hrec := ih r (delay * 2) (k + 1) (by omega)
      (fun i hi => by
        obtain ⟨e, he, hc⟩ := hfail (i + 1) (by omega)
        refine ⟨e, ?_, hc⟩
        have harith : k + 1 + i = k + (i + 1) := by omega
        rwa [harith])
      (by
        have harith : k + 1 + n = k + (n + 1) := by omega
        rwa [harith])
    rw [hrec]
    simp only [List.range_succ_eq_map, List.map_cons, List.map_map,
      pow_zero, Nat.mul_one]
    refine Prod.ext rfl (Prod.ext rfl ?_)
    simp only
    congr 1
    apply List.map_congr_left
    intro i _
    simp only [Function.comp_apply, pow_succ]
    ring

/-- If every invocation within the budget fails retryably, the runner
re-raises the error of the last invocation after `retries + 1` calls. -/
theorem runRetry_exhaust {α : Type} (classify : JsError → RetryClass)
    (op : Nat → Except JsError α) (eLast : JsError) :
    ∀ (retries delay k : Nat),
      (∀ i, i ≤ retries → ∃ e, op (k + i) = .error e ∧ classify e = .retryable) →
      op (k + retries) = .error eLast →
      runRetry classify op retries delay k =
        (.error eLast, retries + 1,
          (List.range retries).map (fun i => delay * 2 ^ i)) := by
  intro retries
  induction retries with
  | zero =>
    intro delay k hfail hlast
    obtain ⟨e, he, hc⟩ := hfail 0 (Nat.le_refl 0)
    rw [Nat.add_zero] at he hlast
    have heq : e = eLast := by rw [he] at hlast; injection hlast
    subst heq
    rw [runRetry_retryable_zero he hc]
    simp
  | succ r ih =>
    intro delay k hfail hlast
    obtain ⟨e0, he0, hc0⟩ := hfail 0 (Nat.zero_le _)
    rw [Nat.add_zero] at he0
    rw [runRetry_retryable_succ he0 hc0]
    have hrec := ih (delay * 2) (k + 1)
      (fun i hi => by
        obtain ⟨e, he, hc⟩ := hfail (i + 1) (by omega)
        refine ⟨e, ?_, hc⟩
        have harith : k + 1 + i = k + (i + 1) := by omega
        rwa [harith])
      (by
        have harith : k + 1 + r = k + (r + 1) := by omega
        rwa [harith])
    rw [hrec]
    simp only [List.range_succ_eq_map, List.map_cons, List.map_map,
      pow_zero, Nat.mul_one]
    refine Prod.ext rfl (Prod.ext rfl ?_)
    simp only
    congr 1
    apply List.map_congr_left
    intro i _
    simp only [Function.comp_apply, pow_succ]
    ring

/-- `find?` on a list whose head section rejects the predicate returns
the first accepting element. -/
theorem find?_append_first {α : Type} (p : α → Bool) (pre post : List α)
    (a : α) (hpre : ∀ x ∈ pre, p x = false) (ha : p a = true) :
    (pre ++ a :: post).find? p = some a := by
  induction pre with
  | nil => simp [List.find?_cons, ha]
  | cons b bs ih =>
    have hb : p b = false := hpre b (List.mem_cons_self b bs)
    rw [List.cons_append, List.find?_cons, hb]
    exact ih (fun x hx => hpre x (List.mem_cons_of_mem b hx))

/-! ## Claims -/

/-- C1: for every backend response text to EstimateSize, the text is
uppercased and the first enumerated size code (scan order XS, S, M, L,
XL, XXL) found as a substring is returned; if the text contains none of
the six codes the result is M. -/
theorem estimateSize_parse_first_match (t : Option String) :
    ((∀ s ∈ validSizes, jsIncludes (normalizedSizeText t) s = false) →
      parseSizeResponse t = "M") ∧
    (∀ pre code post, validSizes = pre ++ code :: post →
      jsIncludes (normalizedSizeText t) code = true →
      (∀ s ∈ pre, jsIncludes (normalizedSizeText t) s = false) →
      parseSizeResponse t = code) := by
  constructor
  · intro hnone
    have hfind :
        validSizes.find? (fun s => jsIncludes (normalizedSizeText t) s) = none :=
      List.find?_eq_none.mpr (fun x hx => by rw [hnone x hx]; exact Bool.false_ne_true)
    rw [parseSizeResponse, hfind]
    rfl
  · intro pre code post hsplit hcode hpre
    have hfind :
        validSizes.find? (fun s => jsIncludes (normalizedSizeText t) s) = some code := by
      rw [hsplit]
      exact find?_append_first _ pre post code hpre hcode
    rw [parseSizeResponse, hfind]
    rfl

/-- Witness for C1 at the concrete response text `" m "`. -/
theorem estimateSize_parse_first_match_witness :
    parseSizeResponse (some " m ") = "M" :=
  (estimateSize_parse_first_match (some " m ")).2 ["XS", "S"] "M" ["L", "XL", "XXL"]
    rfl (by decide) (by decide)

/-- C2: both `fetchWithRetry` variants invoke the wrapped operation at
most `retries + 1` times; the slept delays double from the base delay
(`delay * 2 ^ (n - 1)` before attempt `n + 1`); a success after `j`
retryable failures within budget is returned as-is after `j + 1`
invocations; and when every invocation within the budget fails
retryably, the error of the last invocation is re-raised. -/
theorem fetchWithRetry_budget_backoff {α : Type}
    (op : Nat → Except JsError α) (retries delay : Nat) :
    ((fetchWithRetryV1 op retries delay 0).2.1 ≤ retries + 1 ∧
     (fetchWithRetryV2 op retries delay 0).2.1 ≤ retries + 1) ∧
    ((fetchWithRetryV1 op retries delay 0).2.2 =
      (List.range ((fetchWithRetryV1 op retries delay 0).2.1 - 1)).map
        (fun i => delay * 2 ^ i) ∧
     (fetchWithRetryV2 op retries delay 0).2.2 =
      (List.range ((fetchWithRetryV2 op retries delay 0).2.1 - 1)).map
        (fun i => delay * 2 ^ i)) ∧
    (∀ j v, j ≤ retries →
      (∀ i, i < j → ∃ e, op i = .error e ∧ classifyV1 e = .retryable) →
      op j = .ok v →
      fetchWithRetryV1 op retries delay 0 =
        (.ok v, j + 1, (List.range j).map (fun i => delay * 2 ^ i))) ∧
    (∀ j v, j ≤ retries →
      (∀ i, i < j → ∃ e, op i = .error e ∧ classifyV2 e = .retryable) →
      op j = .ok v →
      fetchWithRetryV2 op retries delay 0 =
        (.ok v, j + 1, (List.range j).map (fun i => delay * 2 ^ i))) ∧
    (∀ eLast,
      (∀ i, i ≤ retries → ∃ e, op i = .error e ∧ classifyV1 e = .retryable) →
      op retries = .error eLast →
      fetchWithRetryV1 op retries delay 0 =
        (.error eLast, retries + 1,
         (List.range retries).map (fun i => delay * 2 ^ i))) ∧
    (∀ eLast,
      (∀ i, i ≤ retries → ∃ e, op i = .error e ∧ classifyV2 e = .retryable) →
      op retries = .error eLast →
      fetchWithRetryV2 op retries delay 0 =
        (.error eLast, retries + 1,
         (List.range retries).map (fun i => delay * 2 ^ i))) := by
  refine ⟨⟨runRetry_calls_le _ _ _ _ _, runRetry_calls_le _ _ _ _ _⟩,
    ⟨runRetry_delays _ _ _ _ _, runRetry_delays _ _ _ _ _⟩, ?_, ?_, ?_, ?_⟩
  · intro j v hj hf hok
    exact runRetry_first_success classifyV1 op v j retries delay 0 hj
      (fun i hi => by simpa using hf i hi) (by simpa using hok)
  · intro j v hj hf hok
    exact runRetry_first_success classifyV2 op v j retries delay 0 hj
      (fun i hi => by simpa using hf i hi) (by simpa using hok)
  · intro eLast hf hlast
    exact runRetry_exhaust classifyV1 op eLast retries delay 0
      (fun i hi => by simpa using hf i hi) (by simpa using hlast)
  · intro eLast hf hlast
    exact runRetry_exhaust classifyV2 op eLast retries delay 0
      (fun i hi => by simpa using hf i hi) (by simpa using hlast)

/-- Witness for C2: scenario D — two rate-limit failures and then a
success yield the success after three invocations, having slept 2000ms
then 4000ms. -/
theorem fetchWithRetry_budget_backoff_witness :
    fetchWithRetryV1 rateLimitedTwiceOp 2 2000 0 = (.ok 7, 3, [2000, 4000]) := by
  have h := (fetchWithRetry_budget_backoff rateLimitedTwiceOp 2 2000).2.2.1
    2 7 (by omega)
    (fun i hi => ⟨rateLimitError, by simp [rateLimitedTwiceOp, hi], by decide⟩)
    (by simp [rateLimitedTwiceOp])
  rw [h]
  norm_num [List.range_succ]

/-- Counterexample to C3: in the part_002 variant an entity-not-found
failure is not reclassified — the original error, not `KEY_NOT_FOUND`,
propagates after the single invocation. -/
theorem entityNotFound_no_credential_error_in_v2 :
    fetchWithRetryV2 (fun _ => (.error entityNotFoundError : Except JsError Nat))
        2 2000 0 = (.error entityNotFoundError, 1, []) ∧
    isEntityNotFound entityNotFoundError = true ∧
    entityNotFoundError ≠ keyNotFoundError := by
  refine ⟨rfl, by decide, by decide⟩

/-- C3 (amended): an operation whose first failure carries the
entity-not-found phrase is never retried; the part_001 variant raises
the distinct `KEY_NOT_FOUND` error after exactly one invocation, while
the part_002 variant — whenever the message carries no rate-limit or
quota signal — propagates the original error unchanged after exactly
one invocation. -/
theorem entityNotFound_single_attempt {α : Type} (op : Nat → Except JsError α)
    (e : JsError) (retries delay : Nat)
    (h0 : op 0 = .error e) (hent : isEntityNotFound e = true) :
    fetchWithRetryV1 op retries delay 0 = (.error keyNotFoundError, 1, []) ∧
    (isRetryableV2 e = false →
      fetchWithRetryV2 op retries delay 0 = (.error e, 1, [])) := by
  constructor
  · exact runRetry_credential h0 (by simp [classifyV1, hent]) retries delay
  · intro hnr
    exact runRetry_fatal h0 (by simp [classifyV2, hnr]) retries delay

/-- Witness for C3 (amended) at the concrete entity-not-found error. -/
theorem entityNotFound_single_attempt_witness :
    fetchWithRetryV1 (fun _ => (.error entityNotFoundError : Except JsError Nat))
      2 2000 0 = (.error keyNotFoundError, 1, []) :=
  (entityNotFound_single_attempt _ entityNotFoundError 2 2000 rfl (by decide)).1

/-- Counterexample to C4: in the part_001 variant a quota-exceeded
failure without a 429 signal is not classified retryable — it
propagates after a single invocation instead of being retried. -/
theorem quota_not_retried_in_v1 :
    fetchWithRetryV1 (fun _ => (.error quotaError : Except JsError Nat))
        2 2000 0 = (.error quotaError, 1, []) ∧
    jsIncludes quotaError.message "quota" = true ∧
    isRetryableV1 quotaError = false ∧
    isRetryableV2 quotaError = true := by
  refine ⟨rfl, by decide, by decide, by decide⟩

/-- C4 (amended): the part_002 variant classifies a failure retryable
exactly when its message contains `429`, its status is 429, or its
message contains `quota`; the part_001 variant exactly when its message
contains `429` or its status is 429 (a quota-only signal is not
retryable there), with the entity-not-found check taking precedence.
Retryable failures are retried within the budget; every other failure
propagates immediately after the single invocation. -/
theorem retry_classification_exact {α : Type} (op : Nat → Except JsError α)
    (e : JsError) (r delay : Nat) (h0 : op 0 = .error e) :
    (isRetryableV2 e = true →
      fetchWithRetryV2 op (r + 1) delay 0 =
        ((runRetry classifyV2 op r (delay * 2) 1).1,
         (runRetry classifyV2 op r (delay * 2) 1).2.1 + 1,
         delay :: (runRetry classifyV2 op r (delay * 2) 1).2.2)) ∧
    (isRetryableV2 e = false →
      fetchWithRetryV2 op (r + 1) delay 0 = (.error e, 1, [])) ∧
    (isEntityNotFound e = false → isRetryableV1 e = true →
      fetchWithRetryV1 op (r + 1) delay 0 =
        ((runRetry classifyV1 op r (delay * 2) 1).1,
         (runRetry classifyV1 op r (delay * 2) 1).2.1 + 1,
         delay :: (runRetry classifyV1 op r (delay * 2) 1).2.2)) ∧
    (isEntityNotFound e = false → isRetryableV1 e = false →
      fetchWithRetryV1 op (r + 1) delay 0 = (.error e, 1, [])) := by
  refine ⟨?_, ?_, ?_, ?_⟩
  · intro hr
    exact runRetry_retryable_succ h0 (by simp [classifyV2, hr]) r delay
  · intro hnr
    exact runRetry_fatal h0 (by simp [classifyV2, hnr]) (r + 1) delay
  · intro hne hr
    exact runRetry_retryable_succ h0 (by simp [classifyV1, hne, hr]) r delay
  · intro hne hnr
    exact runRetry_fatal h0 (by simp [classifyV1, hne, hnr]) (r + 1) delay

/-- Witness for C4 (amended): an unclassified server failure propagates
immediately through the part_001 variant. -/
theorem retry_classification_exact_witness :
    fetchWithRetryV1 (fun _ => (.error serverError : Except JsError Nat))
      2 2000 0 = (.error serverError, 1, []) :=
  (retry_classification_exact _ serverError 1 2000 rfl).2.2.2 (by decide) (by decide)

/-- Counterexample to C5: a response whose first inline-data part
carries no data fails with `GenerationFailed` even though a later part
does carry embedded image data that the claim says is returned. -/
theorem compose_first_inline_part_shortcircuits :
    inspectTryOnResponse safetyMessageV1 generationFailedMessageV1
        dataLessInlineResponse = .error ⟨generationFailedMessageV1, none⟩ ∧
    isSafetyBlocked dataLessInlineResponse = false ∧
    ((((dataLessInlineResponse.candidates.bind List.head?).bind
          Candidate.content).bind CandidateContent.parts).map
        (List.map (fun p => p.inlineData.bind InlineData.data)))
      = some [none, some "QUJD"] := by
  refine ⟨rfl, by decide, by decide⟩

/-- C5 (amended): on a safety-reported response the composite call
fails with the `ContentRejected` message after a single invocation (no
retry); otherwise the part selected is the first one having an
`inlineData` field — when that part carries nonempty data it is wrapped
as a `data:image/jpeg;base64,` URI and returned, and in every other
case (no inline part, or a dataless first inline part even when a later
part has data) the call fails with `GenerationFailed`, also without
retry. -/
theorem compose_response_inspection (resp : Nat → GenResponse) :
    (isSafetyBlocked (resp 0) = true →
      performVirtualTryOnV1 resp =
        (.error ⟨safetyMessageV1, none⟩, 1, [])) ∧
    (isSafetyBlocked (resp 0) = false →
      (∀ d, extractInlineData (resp 0) = some d →
        performVirtualTryOnV1 resp =
          (.ok ("data:image/jpeg;base64," ++ d), 1, [])) ∧
      (extractInlineData (resp 0) = none →
        performVirtualTryOnV1 resp =
          (.error ⟨generationFailedMessageV1, none⟩, 1, []))) := by
  constructor
  · intro hs
    have hop : inspectTryOnResponse safetyMessageV1 generationFailedMessageV1
        (resp 0) = .error ⟨safetyMessageV1, none⟩ := by
      rw [inspectTryOnResponse, if_pos hs]
    exact runRetry_fatal hop (by decide) 2 2000
  · intro hs
    constructor
    · intro d hd
      have hop : inspectTryOnResponse safetyMessageV1 generationFailedMessageV1
          (resp 0) = .ok ("data:image/jpeg;base64," ++ d) := by
        rw [inspectTryOnResponse, if_neg (by simp [hs]), hd]
      exact runRetry_ok hop 2 2000
    · intro hd
      have hop : inspectTryOnResponse safetyMessageV1 generationFailedMessageV1
          (resp 0) = .error ⟨generationFailedMessageV1, none⟩ := by
        rw [inspectTryOnResponse, if_neg (by simp [hs]), hd]
      exact runRetry_fatal hop (by decide) 2 2000

/-- Witness for C5 (amended): a safety-blocked response terminates the
composite call with the `ContentRejected` message after one invocation. -/
theorem compose_response_inspection_witness :
    performVirtualTryOnV1 (fun _ => safetyResponse) =
      (.error ⟨safetyMessageV1, none⟩, 1, []) :=
  (compose_response_inspection (fun _ => safetyResponse)).1 (by decide)

/-- C10: every successful composite response is returned under the
hard-coded `data:image/jpeg;base64,` prefix — the payload is the raw
inline data appended to that prefix, with the backend-declared MIME
type never consulted. -/
theorem compose_mime_hardcoded (safetyMsg failMsg : String)
    (r : GenResponse) (s : String)
    (h : inspectTryOnResponse safetyMsg failMsg r = .ok s) :
    ∃ d, extractInlineData r = some d ∧ s = "data:image/jpeg;base64," ++ d := by
  rw [inspectTryOnResponse] at h
  by_cases hs : isSafetyBlocked r = true
  · rw [if_pos hs] at h
    exact absurd h (by simp)
  · rw [if_neg hs] at h
    cases hd : extractInlineData r with
    | none => rw [hd] at h; exact absurd h (by simp)
    | some d =>
      rw [hd] at h
      exact ⟨d, rfl, by injection h with h; exact h.symm⟩

/-- Witness for C10: a response declaring `image/png` on its inline
data still comes back under the `image/jpeg` data-URI prefix. -/
theorem compose_mime_hardcoded_witness :
    ∃ d, extractInlineData pngResponse = some d ∧
      "data:image/jpeg;base64,QUJD" = "data:image/jpeg;base64," ++ d :=
  compose_mime_hardcoded safetyMessageV1 generationFailedMessageV1
    pngResponse "data:image/jpeg;base64,QUJD" rfl

/-- C6: for positive decoded dimensions and a positive bound, the
normalized output's longer edge never exceeds the bound, the aspect
ratio is preserved (cross-multiplication), dimensions are never
upscaled, and an input already within the bound passes through with its
dimensions unchanged. -/
theorem optimize_dims_bound (w h B : ℚ) (hw : 0 < w) (hh : 0 < h)
    (hB : 0 < B) :
    max (optimizeDims w h B).1 (optimizeDims w h B).2 ≤ B ∧
    (optimizeDims w h B).1 * h = (optimizeDims w h B).2 * w ∧
    (optimizeDims w h B).1 ≤ w ∧
    (optimizeDims w h B).2 ≤ h ∧
    (max w h ≤ B → optimizeDims w h B = (w, h)) := by
  rw [optimizeDims]
  by_cases h1 : h < w
  · rw [if_pos h1]
    by_cases h2 : B < w
    · rw [if_pos h2]
      have hwne : w ≠ 0 := ne_of_gt hw
      have hkey : h * (B / w) ≤ B := by
        rw [← mul_div_assoc, div_le_iff₀ hw]
        nlinarith
      have hup : h * (B / w) ≤ h := by
        have hd1 : B / w ≤ 1 := (div_le_one hw).mpr (le_of_lt h2)
        calc h * (B / w) ≤ h * 1 :=
              mul_le_mul_of_nonneg_left hd1 hh.le
          _ = h := mul_one h
      refine ⟨max_le (le_refl B) hkey, ?_, le_of_lt h2, hup, ?_⟩
      · show B * h = h * (B / w) * w
        field_simp
        ring
      · intro hmax
        exact absurd (le_trans (le_max_left w h) hmax) (not_le.mpr h2)
    · rw [if_neg h2]
      have h2' : w ≤ B := le_of_not_lt h2
      exact ⟨max_le h2' (le_trans (le_of_lt h1) h2'), mul_comm w h,
        le_refl w, le_refl h, fun _ => rfl⟩
  · rw [if_neg h1]
    have h1' : w ≤ h := le_of_not_lt h1
    by_cases h2 : B < h
    · rw [if_pos h2]
      have hhne : h ≠ 0 := ne_of_gt hh
      have hkey : w * (B / h) ≤ B := by
        rw [← mul_div_assoc, div_le_iff₀ hh]
        nlinarith
      have hup : w * (B / h) ≤ w := by
        have hd1 : B / h ≤ 1 := (div_le_one hh).mpr (le_of_lt h2)
        calc w * (B / h) ≤ w * 1 :=
              mul_le_mul_of_nonneg_left hd1 hw.le
          _ = w := mul_one w
      refine ⟨max_le hkey (le_refl B), ?_, hup, le_of_lt h2, ?_⟩
      · show w * (B / h) * h = B * w
        field_simp
        ring
      · intro hmax
        exact absurd (le_trans (le_max_right w h) hmax) (not_le.mpr h2)
    · rw [if_neg h2]
      have h2' : h ≤ B := le_of_not_lt h2
      exact ⟨max_le (le_trans h1' h2') h2', mul_comm w h,
        le_refl w, le_refl h, fun _ => rfl⟩

/-- Witness for C6: a 2000×1000 decode under the 1024 bound fits the
bound after normalization. -/
theorem optimize_dims_bound_witness :
    max (optimizeDims 2000 1000 1024).1 (optimizeDims 2000 1000 1024).2
      ≤ 1024 :=
  (optimize_dims_bound 2000 1000 1024 (by norm_num) (by norm_num)
    (by norm_num)).1

/-- C7: an undecodable source rejects with the `DecodeError` message and
never yields a payload. -/
theorem optimizeImage_undecodable (decode : String → Option (ℚ × ℚ))
    (src : String) (B : ℚ) (h : decode src = none) :
    optimizeImage decode src B = .error decodeErrorMessage ∧
    ∀ p, optimizeImage decode src B ≠ .ok p := by
  have he : optimizeImage decode src B = .error decodeErrorMessage := by
    rw [optimizeImage, h]
  exact ⟨he, fun p hp => by rw [he] at hp; exact Except.noConfusion hp⟩

/-- Witness for C7 at a decoder that rejects its input. -/
theorem optimizeImage_undecodable_witness :
    optimizeImage (fun _ => none) "corrupt" 1024 = .error decodeErrorMessage :=
  (optimizeImage_undecodable (fun _ => none) "corrupt" 1024 rfl).1

/-- C8: a product-image URL that is already a data URI is returned
unchanged and the network path is not taken, for every behavior of the
remote fetch. -/
theorem urlToBase64_data_passthrough (remote : String → Except String String)
    (url : String) (h : jsStartsWith url "data:" = true) :
    urlToBase64 remote url = (.ok url, false) := by
  rw [urlToBase64, if_pos h]

/-- Witness for C8 at a concrete data URI and a failing remote. -/
theorem urlToBase64_data_passthrough_witness :
    urlToBase64 (fun _ => .error "network down") "data:image/png;base64,AAA"
      = (.ok "data:image/png;base64,AAA", false) :=
  urlToBase64_data_passthrough _ _ (by decide)

/-- C9: an attempt starting with both inputs present and no published
results produces exactly one of the success pair (composite image and
size published together, error cleared) or the failure message (error
published, no image and no size retained); in particular a size
estimate obtained before a rendering failure is not published. -/
theorem handleTryOn_exactly_one_outcome (errMsg : JsError → String)
    (env : PipelineEnv) (s : TryOnState)
    (hu : s.userImage.isSome = true) (hp : s.selectedProduct.isSome = true)
    (hr : s.resultImage = none) (hz : s.recommendedSize = none) :
    ((∃ img size, runPipeline env = .ok (img, size) ∧
        (handleTryOn errMsg env s).resultImage = some img ∧
        (handleTryOn errMsg env s).recommendedSize = some size ∧
        (handleTryOn errMsg env s).error = none) ∨
     (∃ e, runPipeline env = .error e ∧
        (handleTryOn errMsg env s).resultImage = none ∧
        (handleTryOn errMsg env s).recommendedSize = none ∧
        (handleTryOn errMsg env s).error = some (errMsg e))) ∧
    ¬((handleTryOn errMsg env s).resultImage.isSome = true ∧
      (handleTryOn errMsg env s).error.isSome = true) ∧
    (∀ e, env.render = .error e →
      (∃ pb, env.fetchProduct = .ok pb) →
      (∃ sz, env.estimateSize = .ok sz) →
      (handleTryOn errMsg env s).recommendedSize = none ∧
      (handleTryOn errMsg env s).error.isSome = true) := by
  obtain ⟨u, hu'⟩ := Option.isSome_iff_exists.mp hu
  obtain ⟨p, hp'⟩ := Option.isSome_iff_exists.mp hp
  cases hrun : runPipeline env with
  | ok pr =>
    obtain ⟨img, size⟩ := pr
    have himg : (handleTryOn errMsg env s).resultImage = some img := by
      simp [handleTryOn, hu', hp', hrun]
    have hsize : (handleTryOn errMsg env s).recommendedSize = some size := by
      simp [handleTryOn, hu', hp', hrun]
    have herr : (handleTryOn errMsg env s).error = none := by
      simp [handleTryOn, hu', hp', hrun]
    refine ⟨Or.inl ⟨img, size, rfl, himg, hsize, herr⟩, ?_, ?_⟩
    · rintro ⟨-, habs⟩
      rw [herr] at habs
      exact Bool.false_ne_true habs
    · intro e hre ⟨pb, hpb⟩ ⟨sz, hsz⟩
      have : runPipeline env = .error e := by
        rw [runPipeline, hpb, hsz, hre]
      rw [this] at hrun
      exact Except.noConfusion hrun
  | error e =>
    have himg : (handleTryOn errMsg env s).resultImage = none := by
      simp [handleTryOn, hu', hp', hrun, hr]
    have hsize : (handleTryOn errMsg env s).recommendedSize = none := by
      simp [handleTryOn, hu', hp', hrun, hz]
    have herr : (handleTryOn errMsg env s).error = some (errMsg e) := by
      simp [handleTryOn, hu', hp', hrun]
    refine ⟨Or.inr ⟨e, rfl, himg, hsize, herr⟩, ?_, ?_⟩
    · rintro ⟨habs, -⟩
      rw [himg] at habs
      exact Bool.false_ne_true habs
    · intro e' _ _ _
      exact ⟨hsize, by rw [herr]; rfl⟩

/-- Witness for C9: with a rendering failure after a successful size
estimate, no size is published and the error is. -/
theorem handleTryOn_exactly_one_outcome_witness :
    (handleTryOn appErrorMessage renderFailEnv demoState).recommendedSize
        = none ∧
    (handleTryOn appErrorMessage renderFailEnv demoState).error.isSome
        = true :=
  (handleTryOn_exactly_one_outcome appErrorMessage renderFailEnv demoState
      rfl rfl rfl rfl).2.2 ⟨generationFailedMessageV1, none⟩ rfl
    ⟨"data:image/jpeg;base64,BBBB", rfl⟩ ⟨"M", rfl⟩

end Leggings
